import Mathlib

/-!
Verification of the search core of `bravesearch-mcp`
(`src/tools/bravesearch/mod.rs`), shallowly embedded in Lean.

Modelling conventions:
* Rust `usize` counters are `Nat` (the quantities involved never approach
  overflow: counts are bounded by small clamps, the month counter by 15000).
* `std::time::Instant` is a `Nat` of nanoseconds on a monotonic clock;
  `Instant::duration_since` saturates at zero, matching `Nat` subtraction.
* `Result<T, anyhow::Error>` is `Except String T`, an error carrying its
  rendered message.
* Async functions are pure functions of their inputs; the network call a
  method performs is passed in as an explicit argument (either the parsed
  response body, or an oracle function standing for the upstream call).
* `f64` coordinate values are abstracted as their rendered decimal strings,
  since only their presence, count and verbatim display matter here.
-/

/-! ## Country and language codes -/

/-- The closed set of country codes (`enum CountryCode`); default `US`. -/
inductive CountryCode where
  | ALL | AR | AU | AT | BE | BR | CA | CL | DK | FI | FR | DE | HK | IN
  | ID | IT | JP | KR | MY | MX | NL | NZ | NO | CN | PL | PT | PH | RU
  | SA | ZA | ES | SE | CH | TW | TR | GB | US
deriving DecidableEq, Repr

instance : Inhabited CountryCode := ⟨CountryCode.US⟩

/-- The closed set of language codes (`enum LanguageCode`); default `EN`. -/
inductive LanguageCode where
  | AR | EU | BN | BG | CA | ZhHans | ZhHant | HR | CS | DA | NL | EN
  | EnGb | ET | FI | FR | GL | DE | GU | HE | HI | HU | IS | IT | JA
  | KN | KO | LV | LT | MS | ML | MR | NB | PL | PT | PtBr | PA | RO
  | RU | SR | SK | SL | ES | SV | TA | TE | TH | TR | UK | VI
deriving DecidableEq, Repr

instance : Inhabited LanguageCode := ⟨LanguageCode.EN⟩

/-- First-match lookup in an association list, embedding a Rust `match`
over string literals (patterns are tried top to bottom). -/
def assocLookup {α : Type} (k : String) : List (String × α) → Option α
  | [] => none
  | (a, b) :: t => if k = a then some b else assocLookup k t

/-- Rust `str::to_uppercase`, modelled character-wise (the two coincide
on the ASCII tokens this codec compares against). -/
def strUpper (s : String) : String := ⟨s.data.map Char.toUpper⟩

/-- Rust `str::to_lowercase`, modelled character-wise (the two coincide
on the ASCII tokens this codec compares against). -/
def strLower (s : String) : String := ⟨s.data.map Char.toLower⟩

/-- The arms of `CountryCode::from_str`'s `match`, in source order.
The scrutinee there is `s.to_uppercase()`. -/
def countryCodeArms : List (String × CountryCode) :=
  [("ALL", .ALL), ("AR", .AR), ("AU", .AU), ("AT", .AT), ("BE", .BE),
   ("BR", .BR), ("CA", .CA), ("CL", .CL), ("DK", .DK), ("FI", .FI),
   ("FR", .FR), ("DE", .DE), ("HK", .HK), ("IN", .IN), ("ID", .ID),
   ("IT", .IT), ("JP", .JP), ("KR", .KR), ("MY", .MY), ("MX", .MX),
   ("NL", .NL), ("NZ", .NZ), ("NO", .NO), ("CN", .CN), ("PL", .PL),
   ("PT", .PT), ("PH", .PH), ("RU", .RU), ("SA", .SA), ("ZA", .ZA),
   ("ES", .ES), ("SE", .SE), ("CH", .CH), ("TW", .TW), ("TR", .TR),
   ("GB", .GB), ("US", .US)]

/-- `impl FromStr for CountryCode` (`from_str`): match the uppercased
input against the closed set; on failure, the error message carries the
original input unmodified. -/
def CountryCode.fromStr (s : String) : Except String CountryCode :=
  match assocLookup (strUpper s) countryCodeArms with
  | some c => .ok c
  | none => .error ("Unknown country code: " ++ s)

/-- The arms of `LanguageCode::from_str`'s `match`, in source order.
The scrutinee there is `s.to_lowercase()`; note the extra underscore
spellings `zh_hans`, `zh_hant`, `en_gb`, `pt_br`. -/
def languageCodeArms : List (String × LanguageCode) :=
  [("ar", .AR), ("eu", .EU), ("bn", .BN), ("bg", .BG), ("ca", .CA),
   ("zh-hans", .ZhHans), ("zh_hans", .ZhHans),
   ("zh-hant", .ZhHant), ("zh_hant", .ZhHant),
   ("hr", .HR), ("cs", .CS), ("da", .DA), ("nl", .NL), ("en", .EN),
   ("en-gb", .EnGb), ("en_gb", .EnGb),
   ("et", .ET), ("fi", .FI), ("fr", .FR), ("gl", .GL), ("de", .DE),
   ("gu", .GU), ("he", .HE), ("hi", .HI), ("hu", .HU), ("is", .IS),
   ("it", .IT), ("ja", .JA), ("kn", .KN), ("ko", .KO), ("lv", .LV),
   ("lt", .LT), ("ms", .MS), ("ml", .ML), ("mr", .MR), ("nb", .NB),
   ("pl", .PL), ("pt", .PT),
   ("pt-br", .PtBr), ("pt_br", .PtBr),
   ("pa", .PA), ("ro", .RO), ("ru", .RU), ("sr", .SR), ("sk", .SK),
   ("sl", .SL), ("es", .ES), ("sv", .SV), ("ta", .TA), ("te", .TE),
   ("th", .TH), ("tr", .TR), ("uk", .UK), ("vi", .VI)]

/-- `impl FromStr for LanguageCode` (`from_str`): match the lowercased
input against the arms; on failure, the error message carries the
original input unmodified. -/
def LanguageCode.fromStr (s : String) : Except String LanguageCode :=
  match assocLookup (strLower s) languageCodeArms with
  | some c => .ok c
  | none => .error ("Unknown language code: " ++ s)

/-- `impl fmt::Display for CountryCode`: the Debug variant name,
lowercased. -/
def CountryCode.display : CountryCode → String
  | .ALL => "all" | .AR => "ar" | .AU => "au" | .AT => "at" | .BE => "be"
  | .BR => "br" | .CA => "ca" | .CL => "cl" | .DK => "dk" | .FI => "fi"
  | .FR => "fr" | .DE => "de" | .HK => "hk" | .IN => "in" | .ID => "id"
  | .IT => "it" | .JP => "jp" | .KR => "kr" | .MY => "my" | .MX => "mx"
  | .NL => "nl" | .NZ => "nz" | .NO => "no" | .CN => "cn" | .PL => "pl"
  | .PT => "pt" | .PH => "ph" | .RU => "ru" | .SA => "sa" | .ZA => "za"
  | .ES => "es" | .SE => "se" | .CH => "ch" | .TW => "tw" | .TR => "tr"
  | .GB => "gb" | .US => "us"

/-- `impl fmt::Display for LanguageCode`: four explicit hyphenated cases,
otherwise the Debug variant name lowercased. -/
def LanguageCode.display : LanguageCode → String
  | .ZhHans => "zh-hans" | .ZhHant => "zh-hant"
  | .EnGb => "en-gb" | .PtBr => "pt-br"
  | .AR => "ar" | .EU => "eu" | .BN => "bn" | .BG => "bg" | .CA => "ca"
  | .HR => "hr" | .CS => "cs" | .DA => "da" | .NL => "nl" | .EN => "en"
  | .ET => "et" | .FI => "fi" | .FR => "fr" | .GL => "gl" | .DE => "de"
  | .GU => "gu" | .HE => "he" | .HI => "hi" | .HU => "hu" | .IS => "is"
  | .IT => "it" | .JA => "ja" | .KN => "kn" | .KO => "ko" | .LV => "lv"
  | .LT => "lt" | .MS => "ms" | .ML => "ml" | .MR => "mr" | .NB => "nb"
  | .PL => "pl" | .PT => "pt" | .PA => "pa" | .RO => "ro" | .RU => "ru"
  | .SR => "sr" | .SK => "sk" | .SL => "sl" | .ES => "es" | .SV => "sv"
  | .TA => "ta" | .TE => "te" | .TH => "th" | .TR => "tr" | .UK => "uk"
  | .VI => "vi"

/-- The country tokens documented in the tool schema and the spec
(written there in uppercase). Follows the spec's words, for comparison
with the code's accepted set. -/
def documentedCountryTokens : List String :=
  ["ALL", "AR", "AU", "AT", "BE", "BR", "CA", "CL", "DK", "FI", "FR",
   "DE", "HK", "IN", "ID", "IT", "JP", "KR", "MY", "MX", "NL", "NZ",
   "NO", "CN", "PL", "PT", "PH", "RU", "SA", "ZA", "ES", "SE", "CH",
   "TW", "TR", "GB", "US"]

/-- The language tokens documented in the tool schema and the spec
(written there in lowercase, hyphenated where applicable). Follows the
spec's words, for comparison with the code's accepted set. -/
def documentedLanguageTokens : List String :=
  ["ar", "eu", "bn", "bg", "ca", "zh-hans", "zh-hant", "hr", "cs", "da",
   "nl", "en", "en-gb", "et", "fi", "fr", "gl", "de", "gu", "he", "hi",
   "hu", "is", "it", "ja", "kn", "ko", "lv", "lt", "ms", "ml", "mr",
   "nb", "pl", "pt", "pt-br", "pa", "ro", "ru", "sr", "sk", "sl", "es",
   "sv", "ta", "te", "th", "tr", "uk", "vi"]

/-- The undocumented underscore spellings `LanguageCode::from_str`
additionally accepts. -/
def underscoreLanguageVariants : List String :=
  ["zh_hans", "zh_hant", "en_gb", "pt_br"]

/-! ## Rate limiter -/

/-- `RATE_LIMIT_PER_SECOND` -/
def RATE_LIMIT_PER_SECOND : Nat := 1

/-- `RATE_LIMIT_PER_MONTH` -/
def RATE_LIMIT_PER_MONTH : Nat := 15000

/-- `Duration::from_secs(1)` in nanoseconds. -/
def ONE_SECOND : Nat := 1000000000

/-- `struct RequestCount` guarded by the limiter's mutex; `last_reset`
is an `Instant`, modelled as nanoseconds on a monotonic clock. -/
structure RequestCount where
  second : Nat
  month : Nat
  last_reset : Nat
deriving DecidableEq, Repr

/-- `RateLimiter::new` at construction instant `t`. -/
def RateLimiter.new (t : Nat) : RequestCount :=
  { second := 0, month := 0, last_reset := t }

/-- `RateLimiter::check_rate_limit`, as a function of the guarded state
and `Instant::now()`. Returns the call's result together with the state
left behind the mutex (a window reset persists even when the call then
fails). `now.duration_since(last_reset)` saturates at zero, as does Nat
subtraction. -/
def checkRateLimit (rc : RequestCount) (now : Nat) :
    Except String Unit × RequestCount :=
  let rc :=
    if ONE_SECOND < now - rc.last_reset then
      { rc with second := 0, last_reset := now }
    else rc
  if RATE_LIMIT_PER_SECOND ≤ rc.second ∨ RATE_LIMIT_PER_MONTH ≤ rc.month then
    (.error "Rate limit exceeded", rc)
  else
    (.ok (), { rc with second := rc.second + 1, month := rc.month + 1 })

/-- The spec's `check_and_consume` contract, written from the words of
spec §4.1 (reset the one-second window, then test both limits, then
consume): the second definition of a refinement pair, to be compared
with `checkRateLimit`. -/
def check_and_consume (rc : RequestCount) (now : Nat) :
    Except String Unit × RequestCount :=
  let rc :=
    if ONE_SECOND < now - rc.last_reset then
      { rc with second := 0, last_reset := now }
    else rc
  if RATE_LIMIT_PER_SECOND ≤ rc.second ∨ RATE_LIMIT_PER_MONTH ≤ rc.month then
    (.error "Rate limit exceeded", rc)
  else
    (.ok (), { rc with second := rc.second + 1, month := rc.month + 1 })

/-- One `check_rate_limit` call folded over an accumulator carrying the
guarded state and the number of successful calls so far. -/
def checkStep (acc : RequestCount × Nat) (now : Nat) : RequestCount × Nat :=
  let step := checkRateLimit acc.1 now
  (step.2, acc.2 + match step.1 with | .ok _ => 1 | .error _ => 0)

/-- Run a sequence of `check_rate_limit` calls at the given instants,
returning the final state and the number of successful calls. -/
def runCheckTrace (init : RequestCount) (times : List Nat) :
    RequestCount × Nat :=
  times.foldl checkStep (init, 0)

/-! ## Upstream response data model -/

/-- `struct BraveWebResult` -/
structure BraveWebResult where
  title : String
  description : String
  url : String
deriving DecidableEq, Repr

/-- `struct BraveWebResults` -/
structure BraveWebResults where
  results : List BraveWebResult
deriving DecidableEq, Repr

instance : Inhabited BraveWebResults := ⟨⟨[]⟩⟩

/-- `struct BraveNewsThumbnail` -/
structure BraveNewsThumbnail where
  src : Option String
  original : Option String
deriving DecidableEq, Repr

/-- `struct BraveNewsResult` (the `meta_url` field is dead weight for
formatting and is modelled as the raw optional hostname triple collapsed
to presence only — no claim touches it). -/
structure BraveNewsResult where
  title : String
  description : String
  url : String
  age : Option String
  breaking : Option Bool
  page_age : Option String
  page_fetched : Option String
  thumbnail : Option BraveNewsThumbnail
deriving DecidableEq, Repr

/-- `struct BravePostalAddress` -/
structure BravePostalAddress where
  country : Option String
  postal_code : Option String
  street_address : Option String
  address_locality : Option String
  address_region : Option String
deriving DecidableEq, Repr

/-- `struct BraveLocationRef`; `f64` coordinates are abstracted as their
rendered decimal strings. -/
structure BraveLocationRef where
  id : String
  location_type : Option String
  title : Option String
  coordinates : Option (List String)
  postal_address : Option BravePostalAddress
deriving DecidableEq, Repr

/-- `struct BraveLocationsResults` -/
structure BraveLocationsResults where
  results : List BraveLocationRef
deriving DecidableEq, Repr

/-- `struct BraveSearchResponse` -/
structure BraveSearchResponse where
  response_type : String
  web : Option BraveWebResults
  locations : Option BraveLocationsResults
  results : List BraveNewsResult
deriving DecidableEq, Repr

/-! ## Result formatting and the body of each search method -/

/-- One news block from the closure in `perform_news_search`
(lines 574–595 of `mod.rs`). -/
def formatNewsResult (r : BraveNewsResult) : String :=
  let breaking := if r.breaking.getD false then "[BREAKING] " else ""
  let age := r.age.getD "Unknown"
  let thumbnail :=
    match r.thumbnail with
    | some thumb =>
      match thumb.src with
      | some src => "\nThumbnail: " ++ src
      | none => ""
    | none => ""
  breaking ++ "Title: " ++ r.title ++ "\nDescription: " ++ r.description ++
    "\nURL: " ++ r.url ++ "\nAge: " ++ age ++ thumbnail

/-- The tail of `perform_news_search` after a 2xx response: its input is
the outcome of `serde_json::from_str` on the body (the error rendered as
a string), its output the method's `Result<String>`. A parse failure is
returned as a *successful* text, not an `Err`. -/
def performNewsSearchBody (parsed : Except String BraveSearchResponse) :
    Except String String :=
  match parsed with
  | .error e => .ok ("Failed to parse API response: " ++ e)
  | .ok data =>
    if data.results.isEmpty then
      .ok "No news results found (empty results array)"
    else
      .ok (String.intercalate "\n\n" (data.results.map formatNewsResult))

/-- One web block from the closure in `perform_web_search`
(lines 639–644 of `mod.rs`). -/
def formatWebResult (r : BraveWebResult) : String :=
  "Title: " ++ r.title ++ "\nDescription: " ++ r.description ++
    "\nURL: " ++ r.url

/-- The tail of `perform_web_search` after a 2xx response:
`response.json()` failure propagates as an error via `?`. -/
def performWebSearchBody (parsed : Except String BraveSearchResponse) :
    Except String String :=
  match parsed with
  | .error e => .error e
  | .ok data =>
    .ok (String.intercalate "\n\n"
      ((data.web.getD default).results.map formatWebResult))

/-- The lines pushed for one location reference in the tier-2 loop of
`perform_local_search` (lines 706–746 of `mod.rs`), in push order. -/
def formatLocationRefParts (loc : BraveLocationRef) : List String :=
  let parts : List String := []
  let parts :=
    match loc.title with
    | some title => parts ++ ["Name: " ++ title]
    | none => parts
  let parts :=
    match loc.postal_address with
    | some address =>
      let address_parts :=
        [address.street_address.getD "", address.address_locality.getD "",
         address.address_region.getD "", address.postal_code.getD "",
         address.country.getD ""]
      let address_str :=
        String.intercalate ", " (address_parts.filter (fun p => !p.isEmpty))
      if !address_str.isEmpty then parts ++ ["Address: " ++ address_str]
      else parts
    | none => parts
  let parts :=
    match loc.coordinates with
    | some coords =>
      if 2 ≤ coords.length then
        parts ++ ["Coordinates: " ++ coords.getD 0 "" ++ ", " ++
          coords.getD 1 ""]
      else parts
    | none => parts
  parts ++ ["ID: " ++ loc.id]

/-- One tier-2 block: the pushed lines joined with newlines. -/
def formatLocationRef (loc : BraveLocationRef) : String :=
  String.intercalate "\n" (formatLocationRefParts loc)

/-- What `perform_local_search` does after parsing a 2xx locations
response: fall back to a plain web search (returning that call's text
verbatim), render the references inline, or — the defensive branch —
fetch POI details and descriptions for the collected ids. -/
inductive LocalSearchOutcome where
  /-- `self.perform_web_search(query, count, 0)`, returned verbatim. -/
  | webFallback (query : String) (count offset : Nat)
  /-- The inline tier-2 text. -/
  | inlineBlocks (text : String)
  /-- `get_pois_data` and `get_descriptions_data` on these ids. -/
  | poiLookup (ids : List String)
deriving DecidableEq, Repr

/-- The decision logic of `perform_local_search` (lines 687–757 of
`mod.rs`) on a parsed response. -/
def performLocalSearchOutcome (query : String) (count : Nat)
    (data : BraveSearchResponse) : LocalSearchOutcome :=
  match data.locations with
  | none => .webFallback query count 0
  | some locations =>
    let location_refs := locations.results
    if location_refs.isEmpty then .webFallback query count 0
    else
      let location_ids := location_refs.map (fun loc => loc.id)
      let results := location_refs.map formatLocationRef
      if !results.isEmpty then
        .inlineBlocks (String.intercalate "\n---\n" results)
      else
        .poiLookup location_ids

/-- The tail of `perform_local_search` after a 2xx response:
`response.json()` failure propagates as an error via `?`. -/
def performLocalSearchBody (query : String) (count : Nat)
    (parsed : Except String BraveSearchResponse) :
    Except String LocalSearchOutcome :=
  match parsed with
  | .error e => .error e
  | .ok data => .ok (performLocalSearchOutcome query count data)

/-! ## Query parameters sent upstream -/

/-- The query parameters of `perform_web_search`'s URL
(lines 605–612 of `mod.rs`). -/
def webSearchParams (query : String) (count offset : Nat) :
    List (String × String) :=
  [("q", query), ("count", toString count), ("offset", toString offset)]

/-- The query parameters of `perform_news_search`'s URL
(lines 512–528 of `mod.rs`). -/
def newsSearchParams (query : String) (count offset : Nat)
    (country : Option CountryCode) (search_lang : Option LanguageCode)
    (freshness : Option String) : List (String × String) :=
  let country_code := (country.getD default).display
  let language_code := (search_lang.getD default).display
  let params :=
    [("q", query), ("count", toString count), ("offset", toString offset),
     ("country", country_code), ("search_lang", language_code),
     ("spellcheck", "1")]
  match freshness with
  | some freshness_val => params ++ [("freshness", freshness_val)]
  | none => params

/-! ## Tool layer -/

/-- `brave_web_search` (lines 887–914 of `mod.rs`): clamp count and
offset, run the search (modelled as the oracle `perform`, standing for
`perform_web_search`), and turn any failure into `"Error: {e}"`. -/
def brave_web_search (query : String) (count offset : Option Nat)
    (perform : String → Nat → Nat → Except String String) : String :=
  let count := min (count.getD 10) 20
  let offset := min (offset.getD 0) 9
  match perform query count offset with
  | .ok result => result
  | .error e => "Error: " ++ e

/-- The count and offset upstream parameters actually produced by
`brave_web_search` composed with `perform_web_search`'s URL building. -/
def braveWebSearchUpstreamParams (query : String)
    (count offset : Option Nat) : List (String × String) :=
  webSearchParams query (min (count.getD 10) 20) (min (offset.getD 0) 9)

/-- `brave_news_search` (lines 919–994 of `mod.rs`): clamp count and
offset, parse the optional country and language codes (returning a
formatted parse-error string immediately on failure, before any search),
then run the search oracle and turn any failure into `"Error: {e}"`. -/
def brave_news_search (query : String) (count offset : Option Nat)
    (country search_lang freshness : Option String)
    (perform : String → Nat → Nat → Option CountryCode →
      Option LanguageCode → Option String → Except String String) :
    String :=
  let count := min (count.getD 20) 50
  let offset := min (offset.getD 0) 9
  match (match country with
         | some c => (CountryCode.fromStr c).map some
         | none => Except.ok none) with
  | .error e => "Error parsing country code: " ++ e
  | .ok country_code =>
    match (match search_lang with
           | some l => (LanguageCode.fromStr l).map some
           | none => Except.ok none) with
    | .error e => "Error parsing language code: " ++ e
    | .ok lang_code =>
      match perform query count offset country_code lang_code freshness with
      | .ok result => result
      | .error e => "Error: " ++ e

/-- The count and offset upstream parameters actually produced by
`brave_news_search` composed with `perform_news_search`'s URL building. -/
def braveNewsSearchUpstreamParams (query : String)
    (count offset : Option Nat) (country : Option CountryCode)
    (search_lang : Option LanguageCode) (freshness : Option String) :
    List (String × String) :=
  newsSearchParams query (min (count.getD 20) 50) (min (offset.getD 0) 9)
    country search_lang freshness

/-- `brave_local_search` (lines 999–1019 of `mod.rs`): clamp count, run
the search oracle (standing for `perform_local_search`), and turn any
failure into `"Error: {e}"`. -/
def brave_local_search (query : String) (count : Option Nat)
    (perform : String → Nat → Except String String) : String :=
  let count := min (count.getD 5) 20
  match perform query count with
  | .ok result => result
  | .error e => "Error: " ++ e

/-! ## Helper lemmas -/

theorem assocLookup_isSome_iff {α : Type} (l : List (String × α))
    (k : String) : (assocLookup k l).isSome = true ↔ k ∈ l.map Prod.fst := by
  induction l with
  | nil => simp [assocLookup]
  | cons p t ih =>
    cases p with
    | mk a b =>
      by_cases h : k = a
      · subst h; simp [assocLookup]
      · simp [assocLookup, h, ih]

theorem assocLookup_eq_none {α : Type} (l : List (String × α)) (k : String)
    (h : k ∉ l.map Prod.fst) : assocLookup k l = none := by
  cases hl : assocLookup k l with
  | none => rfl
  | some c =>
    exact absurd ((assocLookup_isSome_iff l k).mp (by simp [hl])) h

theorem checkRateLimit_month_step (rc : RequestCount) (now : Nat) :
    ((checkRateLimit rc now).2).month =
      rc.month + (match (checkRateLimit rc now).1 with
                  | .ok _ => 1 | .error _ => 0) := by
  simp only [checkRateLimit]
  split <;> split <;> rfl

theorem foldl_checkStep_month (times : List Nat) :
    ∀ acc : RequestCount × Nat,
      ((times.foldl checkStep acc).1).month + acc.2 =
        (times.foldl checkStep acc).2 + acc.1.month := by
  induction times with
  | nil => intro acc; simp only [List.foldl_nil]; omega
  | cons t ts ih =>
    intro acc
    simp only [List.foldl_cons]
    have h1 := ih (checkStep acc t)
    have h2 := checkRateLimit_month_step acc.1 t
    have hstep1 : (checkStep acc t).1 = (checkRateLimit acc.1 t).2 := rfl
    have hstep2 : (checkStep acc t).2 =
        acc.2 + (match (checkRateLimit acc.1 t).1 with
                 | .ok _ => 1 | .error _ => 0) := rfl
    rw [hstep1, hstep2, h2] at h1
    omega

theorem formatLocationRefParts_split (loc : BraveLocationRef) :
    ∃ ps, formatLocationRefParts loc = ps ++ ["ID: " ++ loc.id] :=
  ⟨_, rfl⟩

theorem countryFromStr_ok_iff (s : String) :
    (∃ v, CountryCode.fromStr s = .ok v) ↔
      strUpper s ∈ documentedCountryTokens := by
  have hkeys : countryCodeArms.map Prod.fst = documentedCountryTokens := rfl
  rw [← hkeys, ← assocLookup_isSome_iff]
  unfold CountryCode.fromStr
  cases hl : assocLookup (strUpper s) countryCodeArms with
  | none => simp
  | some c => simp

theorem languageKeys_perm :
    (languageCodeArms.map Prod.fst).Perm
      (documentedLanguageTokens ++ underscoreLanguageVariants) := by
  decide

theorem languageFromStr_ok_iff (s : String) :
    (∃ v, LanguageCode.fromStr s = .ok v) ↔
      strLower s ∈ documentedLanguageTokens ++ underscoreLanguageVariants := by
  rw [← languageKeys_perm.mem_iff, ← assocLookup_isSome_iff]
  unfold LanguageCode.fromStr
  cases hl : assocLookup (strLower s) languageCodeArms with
  | none => simp
  | some c => simp

/-! ## Claim theorems -/

/-- C1: `RateLimiter::check_rate_limit` behaves exactly as the spec's
`check_and_consume`: under exclusive access, elapsed time over one
second first resets the second counter and moves the window start to
now; then either limit being reached fails with a rate-limit error
leaving both counters unchanged, and otherwise both counters are
incremented by exactly one and the call succeeds. In particular a fresh
limiter's first call always succeeds, and advancing time past one
second zeroes only the second counter (the month counter carries over
into the post-reset check). -/
theorem c1_check_rate_limit_spec :
    (∀ rc now, checkRateLimit rc now = check_and_consume rc now) ∧
    (∀ t now, (checkRateLimit (RateLimiter.new t) now).1 = .ok ()) ∧
    (∀ rc now, ONE_SECOND < now - rc.last_reset →
      checkRateLimit rc now =
        checkRateLimit
          { second := 0, month := rc.month, last_reset := now } now) := by
  refine ⟨fun rc now => rfl, ?_, ?_⟩
  · intro t now
    simp only [checkRateLimit, RateLimiter.new]
    split <;> simp [RATE_LIMIT_PER_SECOND, RATE_LIMIT_PER_MONTH]
  · intro rc now h
    simp only [checkRateLimit, h, if_pos, Nat.sub_self]
    have hzero : ¬ ONE_SECOND < now - now := by simp [Nat.sub_self]
    simp [hzero]

theorem c1_check_rate_limit_spec_witness :
    ONE_SECOND < 2000000000 - 0 ∧
    checkRateLimit { second := 5, month := 7, last_reset := 0 } 2000000000 =
      checkRateLimit { second := 0, month := 7, last_reset := 2000000000 }
        2000000000 :=
  ⟨by decide,
   c1_check_rate_limit_spec.2.2 { second := 5, month := 7, last_reset := 0 }
     2000000000 (by decide)⟩

/-- C2: the month counter is never reset or decreased: one call changes
it by exactly the success indicator (so the one-second window reset
never touches it), it is monotone, and over any trace of calls from a
fresh limiter the final month counter equals the number of successful
calls. -/
theorem c2_month_counts_successes :
    (∀ rc now, ((checkRateLimit rc now).2).month =
        rc.month + (match (checkRateLimit rc now).1 with
                    | .ok _ => 1 | .error _ => 0)) ∧
    (∀ rc now, rc.month ≤ ((checkRateLimit rc now).2).month) ∧
    (∀ t times, ((runCheckTrace (RateLimiter.new t) times).1).month =
        (runCheckTrace (RateLimiter.new t) times).2) := by
  refine ⟨checkRateLimit_month_step, ?_, ?_⟩
  · intro rc now
    have h := checkRateLimit_month_step rc now
    omega
  · intro t times
    have h := foldl_checkStep_month times (RateLimiter.new t, 0)
    simpa [runCheckTrace, RateLimiter.new] using h

/-- C3 counterexample: on a successfully parsed news response with an
empty result list, the formatted output is not the literal
`"No news results found"` (the code appends `" (empty results array)"`). -/
theorem c3_counterexample :
    performNewsSearchBody
        (.ok { response_type := "news", web := none, locations := none,
               results := [] }) ≠
      Except.ok "No news results found" := by
  intro h
  exact absurd (Except.ok.inj h) (by decide)

/-- C3 (amended): on a successfully parsed news response with an empty
result list, the formatted output returned to the caller is exactly the
literal string `"No news results found (empty results array)"`. -/
theorem c3_empty_news_message (rt : String) (web : Option BraveWebResults)
    (locs : Option BraveLocationsResults) :
    performNewsSearchBody
        (.ok { response_type := rt, web := web, locations := locs,
               results := [] }) =
      .ok "No news results found (empty results array)" := rfl

/-- C4 counterexample: in the news search, a body that fails to parse
(here with rendered serde message `"expected value at line 1 column 1"`)
is turned into a *successful* text result, contradicting the claim that
a parse failure under a 2xx status is never a success for any search
operation. -/
theorem c4_counterexample :
    performNewsSearchBody (.error "expected value at line 1 column 1") =
      Except.ok
        "Failed to parse API response: expected value at line 1 column 1" :=
  rfl

/-- C4 (amended): under a 2xx status, a JSON parse failure propagates as
an error for the web and local searches, but the news search converts it
into a successful text result `"Failed to parse API response: {cause}"`. -/
theorem c4_parse_error_propagation :
    (∀ e, performWebSearchBody (.error e) = .error e) ∧
    (∀ q c e, performLocalSearchBody q c (.error e) = .error e) ∧
    (∀ e, performNewsSearchBody (.error e) =
        .ok ("Failed to parse API response: " ++ e)) :=
  ⟨fun _ => rfl, fun _ _ _ => rfl, fun _ => rfl⟩

/-- C5: each tool operation returns a plain text string: an invalid
country (resp. language) argument to the news tool returns
`"Error parsing country code: {e}"` (resp. `"Error parsing language
code: {e}"`) without consulting the search oracle at all, and every
failure the underlying search produces is returned as exactly
`"Error: "` followed by the failure message (a success is returned
verbatim). -/
theorem c5_tool_error_strings :
    (∀ q cnt off lg fr perform c e, CountryCode.fromStr c = .error e →
        brave_news_search q cnt off (some c) lg fr perform =
          "Error parsing country code: " ++ e) ∧
    (∀ q cnt off fr perform l e, LanguageCode.fromStr l = .error e →
        brave_news_search q cnt off none (some l) fr perform =
          "Error parsing language code: " ++ e) ∧
    (∀ q cnt off r e,
        brave_web_search q cnt off (fun _ _ _ => .ok r) = r ∧
        brave_web_search q cnt off (fun _ _ _ => .error e) =
          "Error: " ++ e) ∧
    (∀ q cnt off fr r e,
        brave_news_search q cnt off none none fr
          (fun _ _ _ _ _ _ => .ok r) = r ∧
        brave_news_search q cnt off none none fr
          (fun _ _ _ _ _ _ => .error e) = "Error: " ++ e) ∧
    (∀ q cnt r e,
        brave_local_search q cnt (fun _ _ => .ok r) = r ∧
        brave_local_search q cnt (fun _ _ => .error e) = "Error: " ++ e) := by
  refine ⟨?_, ?_, fun q cnt off r e => ⟨rfl, rfl⟩,
    fun q cnt off fr r e => ⟨rfl, rfl⟩, fun q cnt r e => ⟨rfl, rfl⟩⟩
  · intro q cnt off lg fr perform c e h
    simp [brave_news_search, h, Except.map]
  · intro q cnt off fr perform l e h
    simp [brave_news_search, h, Except.map]

theorem c5_tool_error_strings_witness :
    CountryCode.fromStr "ZZ" = .error "Unknown country code: ZZ" ∧
    brave_news_search "q" none none (some "ZZ") none none
        (fun _ _ _ _ _ _ => .ok "unreached") =
      "Error parsing country code: Unknown country code: ZZ" ∧
    LanguageCode.fromStr "xx" = .error "Unknown language code: xx" ∧
    brave_news_search "q" none none none (some "xx") none
        (fun _ _ _ _ _ _ => .ok "unreached") =
      "Error parsing language code: Unknown language code: xx" :=
  ⟨by rfl,
   c5_tool_error_strings.1 "q" none none none none
     (fun _ _ _ _ _ _ => .ok "unreached") "ZZ"
     "Unknown country code: ZZ" (by rfl),
   by rfl,
   c5_tool_error_strings.2.1 "q" none none none
     (fun _ _ _ _ _ _ => .ok "unreached") "xx"
     "Unknown language code: xx" (by rfl)⟩

/-- C6: whenever the parsed locations response carries no location
entries — the `locations` field absent, or present with an empty result
list — `perform_local_search` returns verbatim the text of a plain web
search on the same query with the same count and offset 0. -/
theorem c6_local_fallback_to_web :
    (∀ q c rt web nres,
        performLocalSearchOutcome q c
          { response_type := rt, web := web, locations := none,
            results := nres } = .webFallback q c 0) ∧
    (∀ q c rt web nres,
        performLocalSearchOutcome q c
          { response_type := rt, web := web,
            locations := some { results := [] }, results := nres } =
          .webFallback q c 0) :=
  ⟨fun _ _ _ _ _ => rfl, fun _ _ _ _ _ => rfl⟩

/-- C7: every tier-2 block ends with (hence contains) the line
`"ID: {id}"` even when title, postal address and coordinates are all
absent, a locations response with a non-empty result list renders
exactly one block per entry joined by `"\n---\n"`, and the defensive
POI/descriptions branch of `perform_local_search` is unreachable for
every input. -/
theorem c7_inline_tier_total :
    (∀ loc, formatLocationRefParts loc ≠ [] ∧
        (formatLocationRefParts loc).getLast? = some ("ID: " ++ loc.id) ∧
        formatLocationRef loc =
          String.intercalate "\n" (formatLocationRefParts loc)) ∧
    (∀ q c rt web nres l ls,
        performLocalSearchOutcome q c
          { response_type := rt, web := web,
            locations := some { results := l :: ls }, results := nres } =
          .inlineBlocks (String.intercalate "\n---\n"
            ((l :: ls).map formatLocationRef))) ∧
    (∀ q c data ids, performLocalSearchOutcome q c data ≠ .poiLookup ids) := by
  refine ⟨?_, fun q c rt web nres l ls => rfl, ?_⟩
  · intro loc
    obtain ⟨ps, hps⟩ := formatLocationRefParts_split loc
    refine ⟨by simp [hps], ?_, rfl⟩
    rw [hps]
    exact List.getLast?_concat ps
  · intro q c data ids
    obtain ⟨rt, web, locs, nres⟩ := data
    cases locs with
    | none => simp [performLocalSearchOutcome]
    | some locations =>
      obtain ⟨refs⟩ := locations
      cases refs with
      | nil => simp [performLocalSearchOutcome]
      | cons l ls => simp [performLocalSearchOutcome]

/-- C8 counterexample: `LanguageCode::from_str` accepts `"zh_hans"`,
an input that matches no token of the documented closed set even
ignoring letter case — the claim's "no additional spellings accepted"
fails on the code. -/
theorem c8_counterexample :
    LanguageCode.fromStr "zh_hans" = .ok LanguageCode.ZhHans ∧
    strLower "zh_hans" ∉ documentedLanguageTokens ∧
    ∀ t ∈ documentedLanguageTokens, strLower "zh_hans" ≠ strLower t := by
  refine ⟨by rfl, by decide, by decide⟩

/-- C8 (amended): `parse(s)` succeeds if and only if the case-folded
input is a token of the documented closed set — for `LanguageCode`
extended by the four undocumented underscore spellings `zh_hans`,
`zh_hant`, `en_gb`, `pt_br` that the code also accepts; there is no
other partial or fuzzy matching (the token sets are duplicate-free),
and every failing parse returns an error whose message carries the
rejected input exactly as the caller gave it. -/
theorem c8_parse_exact_match :
    (∀ s, (∃ v, CountryCode.fromStr s = .ok v) ↔
        strUpper s ∈ documentedCountryTokens) ∧
    (∀ s, (∃ v, LanguageCode.fromStr s = .ok v) ↔
        strLower s ∈ documentedLanguageTokens ++ underscoreLanguageVariants) ∧
    (∀ s, strUpper s ∉ documentedCountryTokens →
        CountryCode.fromStr s = .error ("Unknown country code: " ++ s)) ∧
    (∀ s,
        strLower s ∉ documentedLanguageTokens ++ underscoreLanguageVariants →
        LanguageCode.fromStr s = .error ("Unknown language code: " ++ s)) ∧
    documentedCountryTokens.Nodup ∧
    (documentedLanguageTokens ++ underscoreLanguageVariants).Nodup := by
  have hck : countryCodeArms.map Prod.fst = documentedCountryTokens := rfl
  refine ⟨countryFromStr_ok_iff, languageFromStr_ok_iff, ?_, ?_,
    by decide, by decide⟩
  · intro s h
    have hnone : assocLookup (strUpper s) countryCodeArms = none :=
      assocLookup_eq_none _ _ (by rw [hck]; exact h)
    unfold CountryCode.fromStr
    rw [hnone]
  · intro s h
    rw [← languageKeys_perm.mem_iff] at h
    have hnone : assocLookup (strLower s) languageCodeArms = none :=
      assocLookup_eq_none _ _ h
    unfold LanguageCode.fromStr
    rw [hnone]

theorem c8_parse_exact_match_witness :
    (strUpper "ZZ" ∉ documentedCountryTokens ∧
      CountryCode.fromStr "ZZ" = .error "Unknown country code: ZZ") ∧
    (strLower "xx" ∉ documentedLanguageTokens ++ underscoreLanguageVariants ∧
      LanguageCode.fromStr "xx" = .error "Unknown language code: xx") :=
  ⟨⟨by decide, c8_parse_exact_match.2.2.1 "ZZ" (by decide)⟩,
   ⟨by decide, c8_parse_exact_match.2.2.2.1 "xx" (by decide)⟩⟩

/-- C9: for every country and language code value, parsing the canonical
serialization round-trips to the same value; and for every accepted
input, changing the letter case of the input (any input with the same
case-folded form) does not change the parse result. -/
theorem c9_roundtrip_case_insensitive :
    (∀ v : CountryCode, CountryCode.fromStr v.display = .ok v) ∧
    (∀ v : LanguageCode, LanguageCode.fromStr v.display = .ok v) ∧
    (∀ s t v, strUpper s = strUpper t → CountryCode.fromStr s = .ok v →
        CountryCode.fromStr t = .ok v) ∧
    (∀ s t v, strLower s = strLower t → LanguageCode.fromStr s = .ok v →
        LanguageCode.fromStr t = .ok v) := by
  refine ⟨?_, ?_, ?_, ?_⟩
  · intro v; cases v <;> rfl
  · intro v; cases v <;> rfl
  · intro s t v h hok
    unfold CountryCode.fromStr at hok ⊢
    rw [← h]
    cases hl : assocLookup (strUpper s) countryCodeArms with
    | none => rw [hl] at hok; cases hok
    | some c => rw [hl] at hok; exact hok
  · intro s t v h hok
    unfold LanguageCode.fromStr at hok ⊢
    rw [← h]
    cases hl : assocLookup (strLower s) languageCodeArms with
    | none => rw [hl] at hok; cases hok
    | some c => rw [hl] at hok; exact hok

theorem c9_roundtrip_case_insensitive_witness :
    CountryCode.fromStr "Us" = .ok CountryCode.US ∧
    LanguageCode.fromStr "EN" = .ok LanguageCode.EN :=
  ⟨c9_roundtrip_case_insensitive.2.2.1 "US" "Us" CountryCode.US
     (by decide) (by rfl),
   c9_roundtrip_case_insensitive.2.2.2 "en" "EN" LanguageCode.EN
     (by decide) (by rfl)⟩

/-- C10: the tool layer clamps the numeric bounds before anything is
sent upstream: composed with the URL building of the perform methods,
the web tool's `count` query parameter is `min(count, 20)` (default 10)
and its `offset` is `min(offset, 9)` (default 0); the news tool's
`count` is `min(count, 50)` (default 20) and its `offset` is
`min(offset, 9)` (default 0); in particular web `count=999` goes
upstream as `"20"` and news `offset=50` as `"9"`. -/
theorem c10_count_offset_clamping :
    (∀ q cnt off,
        assocLookup "count" (braveWebSearchUpstreamParams q cnt off) =
          some (toString (min (cnt.getD 10) 20)) ∧
        assocLookup "offset" (braveWebSearchUpstreamParams q cnt off) =
          some (toString (min (off.getD 0) 9))) ∧
    (∀ q cnt off ctry lg fr,
        assocLookup "count"
            (braveNewsSearchUpstreamParams q cnt off ctry lg fr) =
          some (toString (min (cnt.getD 20) 50)) ∧
        assocLookup "offset"
            (braveNewsSearchUpstreamParams q cnt off ctry lg fr) =
          some (toString (min (off.getD 0) 9))) ∧
    (∀ q off,
        assocLookup "count" (braveWebSearchUpstreamParams q (some 999) off) =
          some "20") ∧
    (∀ q cnt ctry lg fr,
        assocLookup "offset"
            (braveNewsSearchUpstreamParams q cnt (some 50) ctry lg fr) =
          some "9") := by
  refine ⟨fun q cnt off => ⟨rfl, rfl⟩, ?_, fun q off => rfl, ?_⟩
  · intro q cnt off ctry lg fr
    constructor <;>
      · simp only [braveNewsSearchUpstreamParams, newsSearchParams]
        cases fr <;> rfl
  · intro q cnt ctry lg fr
    simp only [braveNewsSearchUpstreamParams, newsSearchParams]
    cases fr <;> rfl
